import Mathlib

/-!
# Verification of `storepos_client.py` (StorePOS API integration example)

Shallow embedding of the Python class `StorePosApiClient` from
`src/StorePOS.Api.Integration.Guide/examples/python/storepos_client.py`.

Modelling choices:
* JSON values are an inductive `Json`; JSON numbers are rationals.
* The network is an oracle `net : Request → HttpResult`: for the single
  request an operation issues, `net` yields either a response (status code
  plus parsed JSON body) or a transport failure
  (`requests.exceptions.RequestException`).  Bodies are taken to be valid
  JSON, abstracting `response.json()`'s parse step.
* Each operation returns the client state after the call, the list of HTTP
  requests it actually issued, and a `PyResult`: either the Python return
  value or an uncaught exception.
* The `requests.Session` default-header dictionary is an association list;
  the stock defaults requests installs (`User-Agent`, ...) are omitted,
  since the code never reads or writes them (`Authorization` is not among
  them).  `dict.update`/header merging is `setHeader`.
* Python truthiness (`if result.get("success")`, `if not self.access_token`)
  is `truthy`/`truthyOpt`.
-/

/-- A JSON value, as produced by `response.json()`. Numbers are rationals. -/
inductive Json where
  | null
  | bool (b : Bool)
  | num (q : ℚ)
  | str (s : String)
  | arr (elems : List Json)
  | obj (fields : List (String × Json))

/-- An uncaught Python exception, as relevant to this client. -/
inductive PyError where
  /-- Python `KeyError` from `d[k]` on a dict missing `k`. -/
  | keyError (k : String)
  /-- Python `TypeError` from subscripting a non-dict JSON value with a string key. -/
  | typeError
  /-- Python `AttributeError` from calling `.get` on a non-dict value. -/
  | attributeError
  /-- Effect of `raise Exception(msg)`. -/
  | exception (msg : String)
deriving DecidableEq

/-- Outcome of a Python expression: its value, or an uncaught exception. -/
inductive PyResult (α : Type) where
  | ok (a : α)
  | exn (e : PyError)
deriving DecidableEq

/-- One HTTP request as issued through the `requests` session. -/
structure Request where
  method : String
  url : String
  headers : List (String × String)
  body : Option Json


/-- What the network returns for a request: a response (status code and
parsed JSON body), or a transport failure
(`requests.exceptions.RequestException`). -/
inductive HttpResult where
  | response (status : Nat) (body : Json)
  | transportError


/-- Python truthiness of a JSON value (`bool(x)` for the types
`response.json()` can produce). -/
def truthy : Json → Bool
  | .null => false
  | .bool b => b
  | .num q => q != 0
  | .str s => s != ""
  | .arr xs => !xs.isEmpty
  | .obj fs => !fs.isEmpty

/-- Truthiness of `Optional` values: `None` is falsy
(`if not self.access_token`). -/
def truthyOpt : Option Json → Bool
  | none => false
  | some j => truthy j

/-- Python `d.get(k)` on a JSON value: `None`-defaulting lookup on a dict,
`AttributeError` on anything else. -/
def pyGet (j : Json) (k : String) : PyResult (Option Json) :=
  match j with
  | .obj fs => .ok (fs.lookup k)
  | _ => .exn .attributeError

/-- Python `d[k]` on a JSON value: lookup on a dict raising `KeyError` when
the key is missing, `TypeError` when subscripting a non-dict with a string. -/
def pyIndex (j : Json) (k : String) : PyResult Json :=
  match j with
  | .obj fs =>
    match fs.lookup k with
    | some v => .ok v
    | none => .exn (.keyError k)
  | _ => .exn .typeError

/-- Python `dict.update` with a one-entry dict, and header merging: replace
the value at `k` if the key is present (keys are unique in a Python dict),
else append the pair. -/
def setHeader : List (String × String) → String → String → List (String × String)
  | [], k, v => [(k, v)]
  | (k', v') :: rest, k, v =>
    if k' = k then (k, v) :: rest else (k', v') :: setHeader rest k v

/-- Header lookup (`headers[k]`), first match. -/
def headersGet (hs : List (String × String)) (k : String) : Option String :=
  hs.lookup k

mutual
/-- Python `repr` of a JSON value (the decimal rendering of floats and the
escaping inside quoted strings are not needed by the client and are
approximated). -/
def pyRepr : Json → String
  | .null => "None"
  | .bool true => "True"
  | .bool false => "False"
  | .num q =>
    if q.den = 1 then toString q.num
    else toString q.num ++ "/" ++ toString q.den
  | .str s => String.singleton (Char.ofNat 39) ++ s ++ String.singleton (Char.ofNat 39)
  | .arr xs => "[" ++ pyReprList xs ++ "]"
  | .obj fs => "\x7b" ++ pyReprFields fs ++ "\x7d"

/-- Comma-separated `repr`s of list elements. -/
def pyReprList : List Json → String
  | [] => ""
  | [x] => pyRepr x
  | x :: xs => pyRepr x ++ ", " ++ pyReprList xs

/-- Comma-separated `repr`s of dict entries. -/
def pyReprFields : List (String × Json) → String
  | [] => ""
  | [(k, v)] => pyRepr (Json.str k) ++ ": " ++ pyRepr v
  | (k, v) :: fs => pyRepr (Json.str k) ++ ": " ++ pyRepr v ++ ", " ++ pyReprFields fs
end

/-- Python `str(x)` as used by the f-string `f"Bearer {self.access_token}"`:
identity on strings, `repr` on the other JSON types. -/
def pyStr : Json → String
  | .str s => s
  | j => pyRepr j

/-- State of a `StorePosApiClient`: base URL, optional access token, and the
session's default headers. -/
structure Client where
  base_url : String
  access_token : Option Json
  headers : List (String × String)

/-- Constructor `StorePosApiClient.__init__`: no token, fresh session. -/
def mkClient (base_url : String) : Client :=
  { base_url := base_url, access_token := none, headers := [] }

/-- The message of the unauthenticated-usage error raised by `get_products`
and `create_product`. -/
def notAuthErr : PyError :=
  .exception "Not authenticated. Please login first."

/-- The POST request `login` issues: session headers merged with the
per-request `Content-Type` header, credentials as JSON body. -/
def loginRequest (c : Client) (username_or_email password : String) : Request :=
  { method := "POST"
  , url := c.base_url ++ "/api/auth/login"
  , headers := setHeader c.headers "Content-Type" "application/json"
  , body := some (Json.obj
      [("usernameOrEmail", Json.str username_or_email),
       ("password", Json.str password)]) }

/-- Method `StorePosApiClient.login`: POSTs credentials; on HTTP 200 with a truthy
`success` flag stores `result["data"]["accessToken"]` and sets the session's
default `Authorization` header to `Bearer <token>`, returning `True`;
returns `False` on a falsy flag, any other status, or a caught
`RequestException`; key/attribute errors while reading the body propagate. -/
def login (c : Client) (username_or_email password : String)
    (net : Request → HttpResult) : Client × List Request × PyResult Bool :=
  let req := loginRequest c username_or_email password
  match net req with
  | .transportError => (c, [req], .ok false)
  | .response status body =>
    if status = 200 then
      match pyGet body "success" with
      | .exn e => (c, [req], .exn e)
      | .ok flag =>
        if truthyOpt flag then
          match pyIndex body "data" with
          | .exn e => (c, [req], .exn e)
          | .ok d =>
            match pyIndex d "accessToken" with
            | .exn e => (c, [req], .exn e)
            | .ok tok =>
              (⟨c.base_url, some tok,
                 setHeader c.headers "Authorization" ("Bearer " ++ pyStr tok)⟩,
               [req], .ok true)
        else (c, [req], .ok false)
    else (c, [req], .ok false)

/-- The GET request `get_products` issues: session default headers only. -/
def getProductsRequest (c : Client) : Request :=
  { method := "GET"
  , url := c.base_url ++ "/api/products"
  , headers := c.headers
  , body := none }

/-- Method `StorePosApiClient.get_products`: raises the unauthenticated-usage error
when the stored token is falsy (before any request); otherwise GETs
`/api/products` and returns the parsed body on HTTP 200, `None` on any other
status or on a caught `RequestException`. -/
def get_products (c : Client) (net : Request → HttpResult) :
    Client × List Request × PyResult (Option Json) :=
  if truthyOpt c.access_token then
    let req := getProductsRequest c
    match net req with
    | .transportError => (c, [req], .ok none)
    | .response status body =>
      if status = 200 then (c, [req], .ok (some body))
      else (c, [req], .ok none)
  else (c, [], .exn notAuthErr)

/-- The POST request `create_product` issues: session default headers plus
the `Content-Type` header the `json=` keyword adds, record as JSON body. -/
def createProductRequest (c : Client) (product_data : List (String × Json)) :
    Request :=
  { method := "POST"
  , url := c.base_url ++ "/api/products"
  , headers := setHeader c.headers "Content-Type" "application/json"
  , body := some (Json.obj product_data) }

/-- Method `StorePosApiClient.create_product`: raises the unauthenticated-usage
error when the stored token is falsy (before any request); otherwise POSTs
the record and returns the parsed body on HTTP 201, `None` on any other
status or on a caught `RequestException`. -/
def create_product (c : Client) (product_data : List (String × Json))
    (net : Request → HttpResult) : Client × List Request × PyResult (Option Json) :=
  if truthyOpt c.access_token then
    let req := createProductRequest c product_data
    match net req with
    | .transportError => (c, [req], .ok none)
    | .response status body =>
      if status = 201 then (c, [req], .ok (some body))
      else (c, [req], .ok none)
  else (c, [], .exn notAuthErr)

/-- The invariant of C4: whenever an access token is stored, the session's
default headers map `Authorization` to `Bearer <token>` (tokens are stored
as the JSON value the server sent; the header renders it with `str`). -/
def tokenHeaderInv (c : Client) : Prop :=
  ∀ tok, c.access_token = some tok →
    headersGet c.headers "Authorization" = some ("Bearer " ++ pyStr tok)

/-- A concrete already-authenticated client, as it results from a
successful login with token `tok`: used to instantiate theorems about the
product operations. -/
def demoAuthClient : Client :=
  { base_url := "http://localhost:5062"
  , access_token := some (Json.str "tok")
  , headers := [("Authorization", "Bearer tok")] }

/-! ## Helper lemmas -/

/-- Updating a header dictionary at a key makes that key map to the new
value. -/
theorem headersGet_setHeader_self (hs : List (String × String)) (k v : String) :
    headersGet (setHeader hs k v) k = some v := by
  induction hs with
  | nil => simp [setHeader, headersGet, List.lookup]
  | cons p rest ih =>
    obtain ⟨k', v'⟩ := p
    by_cases h : k' = k
    · simp [setHeader, h, headersGet, List.lookup]
    · have hb : (k == k') = false := beq_eq_false_iff_ne.mpr (Ne.symm h)
      simpa [setHeader, h, headersGet, List.lookup, hb] using ih

/-- Updating a header dictionary at one key leaves lookups at other keys
unchanged. -/
theorem headersGet_setHeader_of_ne (hs : List (String × String)) (k k' v : String)
    (h : k ≠ k') : headersGet (setHeader hs k' v) k = headersGet hs k := by
  have hb : (k == k') = false := beq_eq_false_iff_ne.mpr h
  induction hs with
  | nil => simp [setHeader, headersGet, List.lookup, hb]
  | cons p rest ih =>
    obtain ⟨a, b⟩ := p
    by_cases ha : a = k'
    · subst ha
      simp [setHeader, headersGet, List.lookup, hb]
    · by_cases hk : k = a
      · have hkb : (k == a) = true := beq_iff_eq.mpr hk
        simp [setHeader, ha, headersGet, List.lookup, hkb]
      · have hkb : (k == a) = false := beq_eq_false_iff_ne.mpr hk
        simpa [setHeader, ha, headersGet, List.lookup, hkb] using ih

/-- The `get_products` method never changes the client state. -/
theorem get_products_state (c : Client) (net : Request → HttpResult) :
    (get_products c net).1 = c := by
  unfold get_products
  by_cases ht : truthyOpt c.access_token = true
  · cases hn : net (getProductsRequest c) with
    | transportError => simp [ht, hn]
    | response s b => by_cases hs : s = 200 <;> simp [ht, hn, hs]
  · simp [ht]

/-- The `create_product` method never changes the client state. -/
theorem create_product_state (c : Client) (pd : List (String × Json))
    (net : Request → HttpResult) : (create_product c pd net).1 = c := by
  unfold create_product
  by_cases ht : truthyOpt c.access_token = true
  · cases hn : net (createProductRequest c pd) with
    | transportError => simp [ht, hn]
    | response s b => by_cases hs : s = 201 <;> simp [ht, hn, hs]
  · simp [ht]

/-- `get_products` issues no request, or exactly the one GET request. -/
theorem get_products_requests (c : Client) (net : Request → HttpResult) :
    (get_products c net).2.1 = [] ∨
    (get_products c net).2.1 = [getProductsRequest c] := by
  unfold get_products
  by_cases ht : truthyOpt c.access_token = true
  · cases hn : net (getProductsRequest c) with
    | transportError => right; simp [ht, hn]
    | response s b => by_cases hs : s = 200 <;> right <;> simp [ht, hn, hs]
  · left; simp [ht]

/-- `create_product` issues no request, or exactly the one POST request. -/
theorem create_product_requests (c : Client) (pd : List (String × Json))
    (net : Request → HttpResult) :
    (create_product c pd net).2.1 = [] ∨
    (create_product c pd net).2.1 = [createProductRequest c pd] := by
  unfold create_product
  by_cases ht : truthyOpt c.access_token = true
  · cases hn : net (createProductRequest c pd) with
    | transportError => right; simp [ht, hn]
    | response s b => by_cases hs : s = 201 <;> right <;> simp [ht, hn, hs]
  · left; simp [ht]

/-! ## Claims -/

/-- C2: on a client whose `access_token` is still unset, both `get_products`
and `create_product` raise the unauthenticated-usage error, issue no HTTP
request (empty request list), and leave the client state unchanged. -/
theorem unauthenticated_calls_raise (c : Client) (pd : List (String × Json))
    (net net2 : Request → HttpResult) (h : c.access_token = none) :
    get_products c net = (c, [], .exn notAuthErr) ∧
    create_product c pd net2 = (c, [], .exn notAuthErr) := by
  constructor
  · simp [get_products, truthyOpt, h]
  · simp [create_product, truthyOpt, h]

/-- Witness for C2 at a freshly constructed client. -/
theorem unauthenticated_calls_raise_witness :
    (mkClient "http://localhost:5062").access_token = none ∧
    (get_products (mkClient "http://localhost:5062") (fun _ => .transportError) =
        (mkClient "http://localhost:5062", [], .exn notAuthErr) ∧
     create_product (mkClient "http://localhost:5062") [] (fun _ => .transportError) =
        (mkClient "http://localhost:5062", [], .exn notAuthErr)) :=
  ⟨rfl, unauthenticated_calls_raise (mkClient "http://localhost:5062") []
      (fun _ => .transportError) (fun _ => .transportError) rfl⟩

/-- C3: on any failed login — transport failure, non-200 status, or HTTP 200
with a falsy `success` flag — `login` returns `False` and the client state
(access token and session default headers included) is exactly as before. -/
theorem login_failure_returns_false (c : Client) (u p : String)
    (net : Request → HttpResult)
    (h : net (loginRequest c u p) = .transportError ∨
         (∃ status body, net (loginRequest c u p) = .response status body ∧
            status ≠ 200) ∨
         (∃ body flag, net (loginRequest c u p) = .response 200 body ∧
            pyGet body "success" = .ok flag ∧ truthyOpt flag = false)) :
    login c u p net = (c, [loginRequest c u p], .ok false) := by
  rcases h with h | ⟨s, b, h, hs⟩ | ⟨b, flag, h, hget, hflag⟩
  · simp [login, h]
  · simp [login, h, hs]
  · simp [login, h, hget, hflag]

/-- Witness for C3: a login met by HTTP 200 with `success: false`. -/
theorem login_failure_returns_false_witness :
    (∀ r : Request, (fun _ : Request => HttpResult.response 200
        (Json.obj [("success", Json.bool false)])) r =
      .response 200 (Json.obj [("success", Json.bool false)])) ∧
    login (mkClient "http://localhost:5062") "admin@storepos.com" "WrongPass"
        (fun _ => .response 200 (Json.obj [("success", Json.bool false)])) =
      (mkClient "http://localhost:5062",
       [loginRequest (mkClient "http://localhost:5062") "admin@storepos.com"
          "WrongPass"],
       .ok false) :=
  ⟨fun _ => rfl,
   login_failure_returns_false (mkClient "http://localhost:5062")
     "admin@storepos.com" "WrongPass"
     (fun _ => .response 200 (Json.obj [("success", Json.bool false)]))
     (Or.inr (Or.inr ⟨Json.obj [("success", Json.bool false)], some (Json.bool false),
        rfl, rfl, rfl⟩))⟩

/-- C8: a login response of HTTP 200 with a truthy `success` flag whose body
lacks the `data` object (first conjunct) or the `accessToken` key inside it
(third conjunct) makes `login` end in an uncaught `KeyError` — not a caught
`RequestException`, so it is not converted to `False` — with the client
state unchanged and no token stored. -/
theorem login_missing_token_key_raises :
    login (mkClient "http://localhost:5062") "admin@storepos.com" "Admin123!"
        (fun _ => .response 200 (Json.obj [("success", Json.bool true)])) =
      (mkClient "http://localhost:5062",
       [loginRequest (mkClient "http://localhost:5062") "admin@storepos.com"
          "Admin123!"],
       .exn (.keyError "data")) ∧
    (mkClient "http://localhost:5062").access_token = none ∧
    login (mkClient "http://localhost:5062") "admin@storepos.com" "Admin123!"
        (fun _ => .response 200 (Json.obj
          [("success", Json.bool true), ("data", Json.obj [])])) =
      (mkClient "http://localhost:5062",
       [loginRequest (mkClient "http://localhost:5062") "admin@storepos.com"
          "Admin123!"],
       .exn (.keyError "accessToken")) := by
  refine ⟨?_, rfl, ?_⟩ <;> rfl

/-- C10: for an authenticated client (truthy stored token), `get_products`
and `create_product` return the client state — base URL, access token and
session default headers — unchanged, under every network outcome. -/
theorem product_ops_leave_state_unchanged (c : Client)
    (pd : List (String × Json)) (net net2 : Request → HttpResult)
    (hauth : truthyOpt c.access_token = true) :
    (get_products c net).1 = c ∧ (create_product c pd net2).1 = c :=
  ⟨get_products_state c net, create_product_state c pd net2⟩

/-- Witness for C10 at a concrete authenticated client and a 200/201-free
network. -/
theorem product_ops_leave_state_unchanged_witness :
    truthyOpt (Client.mk "http://localhost:5062" (some (Json.str "tok"))
        [("Authorization", "Bearer tok")]).access_token = true ∧
    ((get_products (Client.mk "http://localhost:5062" (some (Json.str "tok"))
        [("Authorization", "Bearer tok")]) (fun _ => .response 500 Json.null)).1 =
      Client.mk "http://localhost:5062" (some (Json.str "tok"))
        [("Authorization", "Bearer tok")] ∧
     (create_product (Client.mk "http://localhost:5062" (some (Json.str "tok"))
        [("Authorization", "Bearer tok")]) [("sku", Json.str "PYTHON-001")]
        (fun _ => .transportError)).1 =
      Client.mk "http://localhost:5062" (some (Json.str "tok"))
        [("Authorization", "Bearer tok")]) :=
  ⟨rfl, product_ops_leave_state_unchanged
      (Client.mk "http://localhost:5062" (some (Json.str "tok"))
        [("Authorization", "Bearer tok")])
      [("sku", Json.str "PYTHON-001")]
      (fun _ => .response 500 Json.null) (fun _ => .transportError) rfl⟩

/-- C1: on a login response of HTTP 200 whose body has a truthy `success`
flag and a token string at `data.accessToken`, `login` stores the token in
`access_token`, sets the session default `Authorization` header to
`Bearer <token>`, returns `True`, and every request a subsequent
`get_products` or `create_product` call issues carries that header. -/
theorem login_success_stores_token (c : Client) (u p : String)
    (net net1 net2 : Request → HttpResult) (body d : Json)
    (flag : Option Json) (tok : String)
    (hresp : net (loginRequest c u p) = .response 200 body)
    (hget : pyGet body "success" = .ok flag)
    (hflag : truthyOpt flag = true)
    (hdata : pyIndex body "data" = .ok d)
    (htok : pyIndex d "accessToken" = .ok (.str tok)) :
    ∃ c', login c u p net = (c', [loginRequest c u p], .ok true) ∧
      c'.access_token = some (.str tok) ∧
      headersGet c'.headers "Authorization" = some ("Bearer " ++ tok) ∧
      (∀ r ∈ (get_products c' net1).2.1,
        headersGet r.headers "Authorization" = some ("Bearer " ++ tok)) ∧
      (∀ pd r, r ∈ (create_product c' pd net2).2.1 →
        headersGet r.headers "Authorization" = some ("Bearer " ++ tok)) := by
  refine ⟨⟨c.base_url, some (Json.str tok),
      setHeader c.headers "Authorization" ("Bearer " ++ tok)⟩, ?_, rfl, ?_, ?_, ?_⟩
  · simp [login, hresp, hget, hflag, hdata, htok, pyStr]
  · exact headersGet_setHeader_self _ _ _
  · intro r hr
    rcases get_products_requests _ net1 with hq | hq <;> rw [hq] at hr
    · simp at hr
    · simp at hr
      subst hr
      simp only [getProductsRequest]
      exact headersGet_setHeader_self _ _ _
  · intro pd r hr
    rcases create_product_requests _ pd net2 with hq | hq <;> rw [hq] at hr
    · simp at hr
    · simp at hr
      subst hr
      simp only [createProductRequest]
      rw [headersGet_setHeader_of_ne _ _ _ _ (by decide)]
      exact headersGet_setHeader_self _ _ _

/-- Witness for C1: a concrete successful login response; the resulting
client carries the bearer header and so does the GET it issues next. -/
theorem login_success_stores_token_witness :
    (fun _ : Request => HttpResult.response 200 (Json.obj
        [("success", Json.bool true), ("message", Json.str "ok"),
         ("data", Json.obj [("accessToken", Json.str "tok123")])]))
      (loginRequest (mkClient "http://localhost:5062") "admin@storepos.com"
        "Admin123!") =
      .response 200 (Json.obj
        [("success", Json.bool true), ("message", Json.str "ok"),
         ("data", Json.obj [("accessToken", Json.str "tok123")])]) ∧
    ∃ c', login (mkClient "http://localhost:5062") "admin@storepos.com"
        "Admin123!"
        (fun _ => .response 200 (Json.obj
          [("success", Json.bool true), ("message", Json.str "ok"),
           ("data", Json.obj [("accessToken", Json.str "tok123")])])) =
        (c', [loginRequest (mkClient "http://localhost:5062")
           "admin@storepos.com" "Admin123!"], .ok true) ∧
      c'.access_token = some (.str "tok123") ∧
      headersGet c'.headers "Authorization" = some ("Bearer " ++ "tok123") ∧
      (∀ r ∈ (get_products c' (fun _ => .response 200 (Json.arr []))).2.1,
        headersGet r.headers "Authorization" = some ("Bearer " ++ "tok123")) ∧
      (∀ pd r, r ∈ (create_product c' pd (fun _ => .transportError)).2.1 →
        headersGet r.headers "Authorization" = some ("Bearer " ++ "tok123")) :=
  ⟨rfl,
   login_success_stores_token (mkClient "http://localhost:5062")
     "admin@storepos.com" "Admin123!"
     (fun _ => .response 200 (Json.obj
       [("success", Json.bool true), ("message", Json.str "ok"),
        ("data", Json.obj [("accessToken", Json.str "tok123")])]))
     (fun _ => .response 200 (Json.arr [])) (fun _ => .transportError)
     (Json.obj [("success", Json.bool true), ("message", Json.str "ok"),
        ("data", Json.obj [("accessToken", Json.str "tok123")])])
     (Json.obj [("accessToken", Json.str "tok123")])
     (some (Json.bool true)) "tok123" rfl rfl rfl rfl rfl⟩

/-- C4: every operation — `login` in all its outcomes, `get_products`,
`create_product` — preserves the invariant that a stored access token is
reflected in the session's default `Authorization` header, so a token once
set is attached to all subsequent requests. -/
theorem ops_preserve_token_header_inv (c : Client) (u p : String)
    (pd : List (String × Json)) (net1 net2 net3 : Request → HttpResult)
    (h : tokenHeaderInv c) :
    tokenHeaderInv (login c u p net1).1 ∧
    tokenHeaderInv (get_products c net2).1 ∧
    tokenHeaderInv (create_product c pd net3).1 := by
  refine ⟨?_, ?_, ?_⟩
  · cases hn : net1 (loginRequest c u p) with
    | transportError => simpa [login, hn] using h
    | response s b =>
      by_cases hs : s = 200
      · subst hs
        cases hg : pyGet b "success" with
        | exn e => simpa [login, hn, hg] using h
        | ok flag =>
          by_cases hf : truthyOpt flag = true
          · cases hd : pyIndex b "data" with
            | exn e => simpa [login, hn, hg, hf, hd] using h
            | ok d =>
              cases ht : pyIndex d "accessToken" with
              | exn e => simpa [login, hn, hg, hf, hd, ht] using h
              | ok tok =>
                have hlogin : (login c u p net1).1 =
                    Client.mk c.base_url (some tok)
                      (setHeader c.headers "Authorization"
                        ("Bearer " ++ pyStr tok)) := by
                  simp [login, hn, hg, hf, hd, ht]
                intro t htk
                rw [hlogin] at htk ⊢
                simp only [Option.some.injEq] at htk
                subst htk
                exact headersGet_setHeader_self _ _ _
          · simpa [login, hn, hg, hf] using h
      · simpa [login, hn, hs] using h
  · rw [get_products_state c net2]
    exact h
  · rw [create_product_state c pd net3]
    exact h

/-- Witness for C4 at a fresh client (invariant holds vacuously) and
concrete network outcomes. -/
theorem ops_preserve_token_header_inv_witness :
    tokenHeaderInv (mkClient "http://localhost:5062") ∧
    (tokenHeaderInv (login (mkClient "http://localhost:5062") "a" "b"
        (fun _ => .response 200 (Json.obj
          [("success", Json.bool true),
           ("data", Json.obj [("accessToken", Json.str "tok123")])]))).1 ∧
     tokenHeaderInv (get_products (mkClient "http://localhost:5062")
        (fun _ => .transportError)).1 ∧
     tokenHeaderInv (create_product (mkClient "http://localhost:5062") []
        (fun _ => .transportError)).1) :=
  ⟨(fun _ h => by cases h),
   ops_preserve_token_header_inv (mkClient "http://localhost:5062") "a" "b" []
     (fun _ => .response 200 (Json.obj
       [("success", Json.bool true),
        ("data", Json.obj [("accessToken", Json.str "tok123")])]))
     (fun _ => .transportError) (fun _ => .transportError)
     (fun _ h => by cases h)⟩

/-- C5: for an authenticated client, `get_products` returns exactly the
parsed JSON body on HTTP 200 (round-trip identity) and `None` on any other
status and on a transport exception. -/
theorem get_products_roundtrip (c : Client) (net : Request → HttpResult)
    (hauth : truthyOpt c.access_token = true) :
    (∀ body, net (getProductsRequest c) = .response 200 body →
      get_products c net = (c, [getProductsRequest c], .ok (some body))) ∧
    (∀ status body, net (getProductsRequest c) = .response status body →
      status ≠ 200 →
      get_products c net = (c, [getProductsRequest c], .ok none)) ∧
    (net (getProductsRequest c) = .transportError →
      get_products c net = (c, [getProductsRequest c], .ok none)) := by
  refine ⟨?_, ?_, ?_⟩
  · intro body hb
    simp [get_products, hauth, hb]
  · intro status body hb hs
    simp [get_products, hauth, hb, hs]
  · intro hb
    simp [get_products, hauth, hb]

/-- Witness for C5: a 200 response with a one-product body is returned
verbatim. -/
theorem get_products_roundtrip_witness :
    truthyOpt demoAuthClient.access_token = true ∧
    get_products demoAuthClient
        (fun _ => .response 200 (Json.arr [Json.obj [("sku", Json.str "A")]])) =
      (demoAuthClient, [getProductsRequest demoAuthClient],
       .ok (some (Json.arr [Json.obj [("sku", Json.str "A")]]))) :=
  ⟨rfl,
   (get_products_roundtrip demoAuthClient
      (fun _ => .response 200 (Json.arr [Json.obj [("sku", Json.str "A")]]))
      rfl).1 (Json.arr [Json.obj [("sku", Json.str "A")]]) rfl⟩

/-- C6: for an authenticated client, `create_product` returns the parsed
response body verbatim on HTTP 201 — so when the backend honours its
documented contract (spec section 6: the 201 body is the created object,
i.e. it has an `id` field and echoes every submitted field), the returned
record contains the `id` field and all submitted fields unchanged — and
returns `None` on any other status and on a transport exception. -/
theorem create_product_created_record (c : Client)
    (pd : List (String × Json)) (net : Request → HttpResult)
    (hauth : truthyOpt c.access_token = true) :
    (∀ body idv, net (createProductRequest c pd) = .response 201 body →
      pyGet body "id" = .ok (some idv) →
      (∀ k v, (k, v) ∈ pd → pyGet body k = .ok (some v)) →
      ∃ r, create_product c pd net =
          (c, [createProductRequest c pd], .ok (some r)) ∧
        pyGet r "id" = .ok (some idv) ∧
        (∀ k v, (k, v) ∈ pd → pyGet r k = .ok (some v))) ∧
    (∀ status body, net (createProductRequest c pd) = .response status body →
      status ≠ 201 →
      create_product c pd net = (c, [createProductRequest c pd], .ok none)) ∧
    (net (createProductRequest c pd) = .transportError →
      create_product c pd net = (c, [createProductRequest c pd], .ok none)) := by
  refine ⟨?_, ?_, ?_⟩
  · intro body idv hb hid hecho
    refine ⟨body, ?_, hid, hecho⟩
    simp [create_product, hauth, hb]
  · intro status body hb hs
    simp [create_product, hauth, hb, hs]
  · intro hb
    simp [create_product, hauth, hb]

/-- Witness for C6: a 201 response echoing the submitted record with a fresh
`id` yields a returned record with that `id` and the submitted fields. -/
theorem create_product_created_record_witness :
    truthyOpt demoAuthClient.access_token = true ∧
    ∃ r, create_product demoAuthClient
          [("sku", Json.str "PYTHON-001"), ("price", Json.num (1999 / 100))]
          (fun _ => .response 201 (Json.obj
            [("id", Json.num 42), ("sku", Json.str "PYTHON-001"),
             ("price", Json.num (1999 / 100))])) =
        (demoAuthClient,
         [createProductRequest demoAuthClient
           [("sku", Json.str "PYTHON-001"), ("price", Json.num (1999 / 100))]],
         .ok (some r)) ∧
      pyGet r "id" = .ok (some (Json.num 42)) ∧
      (∀ k v, (k, v) ∈
          [("sku", Json.str "PYTHON-001"), ("price", Json.num (1999 / 100))] →
        pyGet r k = .ok (some v)) :=
  ⟨rfl,
   (create_product_created_record demoAuthClient
      [("sku", Json.str "PYTHON-001"), ("price", Json.num (1999 / 100))]
      (fun _ => .response 201 (Json.obj
        [("id", Json.num 42), ("sku", Json.str "PYTHON-001"),
         ("price", Json.num (1999 / 100))]))
      rfl).1
     (Json.obj [("id", Json.num 42), ("sku", Json.str "PYTHON-001"),
        ("price", Json.num (1999 / 100))])
     (Json.num 42) rfl rfl
     (by
       intro k v h
       simp only [List.mem_cons, List.not_mem_nil, or_false, Prod.mk.injEq] at h
       rcases h with ⟨rfl, rfl⟩ | ⟨rfl, rfl⟩ <;> rfl)⟩

/-- C7: for an authenticated client, a 200 response whose body is the empty
JSON array yields the empty collection, not the absent sentinel; and the
absent sentinel `None` is returned exactly when the status is not 200 or a
transport exception occurs. -/
theorem get_products_absent_vs_empty (c : Client) (net : Request → HttpResult)
    (hauth : truthyOpt c.access_token = true) :
    (net (getProductsRequest c) = .response 200 (Json.arr []) →
      (get_products c net).2.2 = .ok (some (Json.arr [])) ∧
      (get_products c net).2.2 ≠ .ok none) ∧
    ((get_products c net).2.2 = .ok none ↔
      net (getProductsRequest c) = .transportError ∨
      ∃ status body, net (getProductsRequest c) = .response status body ∧
        status ≠ 200) := by
  constructor
  · intro hb
    constructor
    · simp [get_products, hauth, hb]
    · simp [get_products, hauth, hb]
  · cases hn : net (getProductsRequest c) with
    | transportError => simp [get_products, hauth, hn]
    | response s b =>
      by_cases hs : s = 200
      · subst hs
        simp [get_products, hauth, hn]
      · simp [get_products, hauth, hn, hs]

/-- Witness for C7: the empty-array 200 response produces `some []`, not
`none`. -/
theorem get_products_absent_vs_empty_witness :
    truthyOpt demoAuthClient.access_token = true ∧
    ((get_products demoAuthClient
        (fun _ => .response 200 (Json.arr []))).2.2 =
      .ok (some (Json.arr [])) ∧
     (get_products demoAuthClient
        (fun _ => .response 200 (Json.arr []))).2.2 ≠ .ok none) :=
  ⟨rfl,
   (get_products_absent_vs_empty demoAuthClient
      (fun _ => .response 200 (Json.arr [])) rfl).1 rfl⟩

/-- On an authenticated client `get_products` always returns normally (some
`.ok` value), whatever the network does. -/
theorem get_products_ok_of_auth (c : Client) (net : Request → HttpResult)
    (h : truthyOpt c.access_token = true) :
    ∃ o, (get_products c net).2.2 = .ok o := by
  cases hn : net (getProductsRequest c) with
  | transportError => exact ⟨none, by simp [get_products, h, hn]⟩
  | response s b =>
    by_cases hs : s = 200
    · exact ⟨some b, by simp [get_products, h, hn, hs]⟩
    · exact ⟨none, by simp [get_products, h, hn, hs]⟩

/-- On an authenticated client `create_product` always returns normally
(some `.ok` value), whatever the network does. -/
theorem create_product_ok_of_auth (c : Client) (pd : List (String × Json))
    (net : Request → HttpResult) (h : truthyOpt c.access_token = true) :
    ∃ o, (create_product c pd net).2.2 = .ok o := by
  cases hn : net (createProductRequest c pd) with
  | transportError => exact ⟨none, by simp [create_product, h, hn]⟩
  | response s b =>
    by_cases hs : s = 201
    · exact ⟨some b, by simp [create_product, h, hn, hs]⟩
    · exact ⟨none, by simp [create_product, h, hn, hs]⟩

/-- C9: for clients whose stored token (if any) is a string — the only shape
the code's `Optional[str]` annotation intends — the unauthenticated-usage
error is raised exactly when the token is absent or the empty string,
because the guard tests truthiness; in particular a login answered by HTTP
200, `success: true`, and `accessToken: ""` returns `True`, stores the
empty-string token, yet every subsequent `get_products` or `create_product`
call still raises the unauthenticated-usage error. -/
theorem empty_token_still_unauthenticated (c : Client)
    (pd pd2 : List (String × Json)) (net net2 net3 net4 : Request → HttpResult)
    (hstr : ∀ j, c.access_token = some j → ∃ s, j = Json.str s) :
    ((get_products c net).2.2 = .exn notAuthErr ↔
      c.access_token = none ∨ c.access_token = some (Json.str "")) ∧
    ((create_product c pd net2).2.2 = .exn notAuthErr ↔
      c.access_token = none ∨ c.access_token = some (Json.str "")) ∧
    (∃ c', login (mkClient "http://localhost:5062") "admin@storepos.com"
        "Admin123!"
        (fun _ => .response 200 (Json.obj
          [("success", Json.bool true),
           ("data", Json.obj [("accessToken", Json.str "")])])) =
        (c', [loginRequest (mkClient "http://localhost:5062")
           "admin@storepos.com" "Admin123!"], .ok true) ∧
      c'.access_token = some (Json.str "") ∧
      get_products c' net3 = (c', [], .exn notAuthErr) ∧
      create_product c' pd2 net4 = (c', [], .exn notAuthErr)) := by
  refine ⟨?_, ?_, ?_⟩
  · by_cases ht : truthyOpt c.access_token = true
    · constructor
      · intro hcontra
        obtain ⟨o, ho⟩ := get_products_ok_of_auth c net ht
        rw [ho] at hcontra
        exact PyResult.noConfusion hcontra
      · rintro (hnone | hempty)
        · rw [hnone] at ht
          simp [truthyOpt] at ht
        · rw [hempty] at ht
          simp [truthyOpt, truthy] at ht
    · constructor
      · intro _
        cases hc : c.access_token with
        | none => exact Or.inl rfl
        | some j =>
          obtain ⟨s, rfl⟩ := hstr j hc
          rw [hc] at ht
          simp [truthyOpt, truthy] at ht
          subst ht
          exact Or.inr rfl
      · intro _
        simp [get_products, ht]
  · by_cases ht : truthyOpt c.access_token = true
    · constructor
      · intro hcontra
        obtain ⟨o, ho⟩ := create_product_ok_of_auth c pd net2 ht
        rw [ho] at hcontra
        exact PyResult.noConfusion hcontra
      · rintro (hnone | hempty)
        · rw [hnone] at ht
          simp [truthyOpt] at ht
        · rw [hempty] at ht
          simp [truthyOpt, truthy] at ht
    · constructor
      · intro _
        cases hc : c.access_token with
        | none => exact Or.inl rfl
        | some j =>
          obtain ⟨s, rfl⟩ := hstr j hc
          rw [hc] at ht
          simp [truthyOpt, truthy] at ht
          subst ht
          exact Or.inr rfl
      · intro _
        simp [create_product, ht]
  · exact ⟨_, rfl, rfl, rfl, rfl⟩

/-- Witness for C9 at a fresh client (no token, hence string-shaped
vacuously) and concrete networks. -/
theorem empty_token_still_unauthenticated_witness :
    (∀ j, (mkClient "http://localhost:5062").access_token = some j →
      ∃ s, j = Json.str s) ∧
    (((get_products (mkClient "http://localhost:5062")
        (fun _ => .transportError)).2.2 = .exn notAuthErr ↔
      (mkClient "http://localhost:5062").access_token = none ∨
      (mkClient "http://localhost:5062").access_token =
        some (Json.str "")) ∧
     ((create_product (mkClient "http://localhost:5062") []
        (fun _ => .transportError)).2.2 = .exn notAuthErr ↔
      (mkClient "http://localhost:5062").access_token = none ∨
      (mkClient "http://localhost:5062").access_token =
        some (Json.str "")) ∧
     (∃ c', login (mkClient "http://localhost:5062") "admin@storepos.com"
        "Admin123!"
        (fun _ => .response 200 (Json.obj
          [("success", Json.bool true),
           ("data", Json.obj [("accessToken", Json.str "")])])) =
        (c', [loginRequest (mkClient "http://localhost:5062")
           "admin@storepos.com" "Admin123!"], .ok true) ∧
      c'.access_token = some (Json.str "") ∧
      get_products c' (fun _ => .transportError) =
        (c', [], .exn notAuthErr) ∧
      create_product c' [] (fun _ => .transportError) =
        (c', [], .exn notAuthErr))) :=
  ⟨(fun _ h => by cases h),
   empty_token_still_unauthenticated (mkClient "http://localhost:5062") [] []
     (fun _ => .transportError) (fun _ => .transportError)
     (fun _ => .transportError) (fun _ => .transportError)
     (fun _ h => by cases h)⟩
